import Mathlib

/-!
Shallow embedding of the PNG chunk-type classification module
(`src/chunk.rs` of MichaelMcDonnell/image-png): the `ChunkType` value
type wrapping four bytes, the eighteen well-known chunk-type constants,
the four classification predicates, and the diagnostic (`Debug`)
formatter.  Bytes are modelled as `Nat` values; every byte read from a
real chunk tag satisfies `< 256` and the theorems carry that bound
where it matters.
-/

namespace Png

/-- `pub struct ChunkType(pub [u8; 4]);` — a 4-byte chunk tag.
The four fields are the four entries of the wrapped byte array, in
index order (`type0` is `type_[0]`, and so on). -/
structure ChunkType where
  type0 : Nat
  type1 : Nat
  type2 : Nat
  type3 : Nat
deriving DecidableEq, Hashable

-- Critical chunks

/-- Image header: `ChunkType([b'I', b'H', b'D', b'R'])`. -/
def IHDR : ChunkType := ⟨73, 72, 68, 82⟩

/-- Palette: `ChunkType([b'P', b'L', b'T', b'E'])`. -/
def PLTE : ChunkType := ⟨80, 76, 84, 69⟩

/-- Image data: `ChunkType([b'I', b'D', b'A', b'T'])`. -/
def IDAT : ChunkType := ⟨73, 68, 65, 84⟩

/-- Image trailer: `ChunkType([b'I', b'E', b'N', b'D'])`. -/
def IEND : ChunkType := ⟨73, 69, 78, 68⟩

-- Ancillary chunks

/-- Transparency: `ChunkType([b't', b'R', b'N', b'S'])`. -/
def tRNS : ChunkType := ⟨116, 82, 78, 83⟩

/-- Background colour: `ChunkType([b'b', b'K', b'G', b'D'])`. -/
def bKGD : ChunkType := ⟨98, 75, 71, 68⟩

/-- Image last-modification time: `ChunkType([b't', b'I', b'M', b'E'])`. -/
def tIME : ChunkType := ⟨116, 73, 77, 69⟩

/-- Physical pixel dimensions: `ChunkType([b'p', b'H', b'Y', b's'])`. -/
def pHYs : ChunkType := ⟨112, 72, 89, 115⟩

/-- Source system chromaticities: `ChunkType([b'c', b'H', b'R', b'M'])`. -/
def cHRM : ChunkType := ⟨99, 72, 82, 77⟩

/-- Source system gamma: `ChunkType([b'g', b'A', b'M', b'A'])`. -/
def gAMA : ChunkType := ⟨103, 65, 77, 65⟩

/-- sRGB color space chunk: `ChunkType([b's', b'R', b'G', b'B'])`. -/
def sRGB : ChunkType := ⟨115, 82, 71, 66⟩

/-- ICC profile chunk: `ChunkType([b'i', b'C', b'C', b'P'])`. -/
def iCCP : ChunkType := ⟨105, 67, 67, 80⟩

/-- Latin-1 uncompressed textual data: `ChunkType([b't', b'E', b'X', b't'])`. -/
def tEXt : ChunkType := ⟨116, 69, 88, 116⟩

/-- Latin-1 compressed textual data: `ChunkType([b'z', b'T', b'X', b't'])`. -/
def zTXt : ChunkType := ⟨122, 84, 88, 116⟩

/-- UTF-8 textual data: `ChunkType([b'i', b'T', b'X', b't'])`. -/
def iTXt : ChunkType := ⟨105, 84, 88, 116⟩

-- Extension chunks

/-- Animation control: `ChunkType([b'a', b'c', b'T', b'L'])`. -/
def acTL : ChunkType := ⟨97, 99, 84, 76⟩

/-- Frame control: `ChunkType([b'f', b'c', b'T', b'L'])`. -/
def fcTL : ChunkType := ⟨102, 99, 84, 76⟩

/-- Frame data: `ChunkType([b'f', b'd', b'A', b'T'])`. -/
def fdAT : ChunkType := ⟨102, 100, 65, 84⟩

-- Chunk type determination

/-- `pub fn is_critical(ChunkType(type_): ChunkType) -> bool { type_[0] & 32 == 0 }` -/
def is_critical (t : ChunkType) : Bool :=
  t.type0 &&& 32 == 0

/-- `pub fn is_private(ChunkType(type_): ChunkType) -> bool { type_[1] & 32 != 0 }` -/
def is_private (t : ChunkType) : Bool :=
  t.type1 &&& 32 != 0

/-- `pub fn reserved_set(ChunkType(type_): ChunkType) -> bool { type_[2] & 32 != 0 }` -/
def reserved_set (t : ChunkType) : Bool :=
  t.type2 &&& 32 != 0

/-- `pub fn safe_to_copy(ChunkType(type_): ChunkType) -> bool { type_[3] & 32 != 0 }` -/
def safe_to_copy (t : ChunkType) : Bool :=
  t.type3 &&& 32 != 0

-- The constant groupings used by the module tests.

/-- `const CRITICAL_CHUNKS: [ChunkType; 4]` from the module tests. -/
def CRITICAL_CHUNKS : List ChunkType := [IHDR, PLTE, IDAT, IEND]

/-- `const ANCILLARY_CHUNKS: [ChunkType; 11]` from the module tests. -/
def ANCILLARY_CHUNKS : List ChunkType :=
  [tRNS, bKGD, tIME, pHYs, cHRM, gAMA, sRGB, iCCP, tEXt, zTXt, iTXt]

/-- `const EXTENSION_CHUNKS: [ChunkType; 3]` from the module tests. -/
def EXTENSION_CHUNKS : List ChunkType := [acTL, fcTL, fdAT]

/-- All eighteen well-known constants, in source order. -/
def ALL_CHUNKS : List ChunkType :=
  CRITICAL_CHUNKS ++ ANCILLARY_CHUNKS ++ EXTENSION_CHUNKS

-- Diagnostic formatting (the `fmt::Debug` implementation).

/-- Lower-case hexadecimal digit character for `n < 16`. -/
def hexDigit (n : Nat) : Char :=
  if n < 10 then Char.ofNat (48 + n) else Char.ofNat (87 + n)

/-- Minimal-width lower-case hexadecimal rendering of a byte value,
as produced inside a Rust `\u` escape for code points below 256. -/
def hexStr (c : Nat) : String :=
  if c < 16 then String.mk [hexDigit c]
  else String.mk [hexDigit (c / 16), hexDigit (c % 16)]

/-- Whether the Unicode code point `c < 256` is printable in the sense
of Rust `core::unicode::printable::is_printable` (used by
`char::escape_debug`): everything except the C0 and C1 control
characters (0x00–0x1f, 0x7f–0x9f), the no-break space 0xa0
(category Zs, escaped like all separators other than 0x20), and the
soft hyphen 0xad (category Cf). -/
def latin1_printable (c : Nat) : Bool :=
  (32 ≤ c && c ≤ 126) || (161 ≤ c && c ≤ 255 && c != 173)

/-- `char::from(c).escape_debug()` restricted to byte values `c < 256`,
rendered as a string: the special cases of `EscapeDebug` (`\0`, `\t`,
`\r`, `\n`, `\\`, the single and the double quote), then printable
characters literally, and everything else as a `\u` escape. -/
def escape_debug (c : Nat) : String :=
  if c = 0 then "\\0"
  else if c = 9 then "\\t"
  else if c = 13 then "\\r"
  else if c = 10 then "\\n"
  else if c = 92 then String.mk [Char.ofNat 92, Char.ofNat 92]
  else if c = 39 then String.mk [Char.ofNat 92, Char.ofNat 39]
  else if c = 34 then String.mk [Char.ofNat 92, Char.ofNat 34]
  else if latin1_printable c then String.mk [Char.ofNat c]
  else "\\u\x7b" ++ hexStr c ++ "\x7d"

/-- The `type` field rendering of the `Debug` implementation: each of
the four bytes passed through `escape_debug`, concatenated
(`DebugType::fmt`). -/
def debug_type (t : ChunkType) : String :=
  escape_debug t.type0 ++ escape_debug t.type1 ++
    escape_debug t.type2 ++ escape_debug t.type3

/-- State of Rust `Formatter::debug_struct` builder in non-alternate
mode: the output accumulated so far and whether a field has been
emitted. -/
structure DebugStruct where
  result : String
  has_fields : Bool

/-- `f.debug_struct(name)` — starts with the bare struct name. -/
def debug_struct (name : String) : DebugStruct :=
  ⟨name, false⟩

/-- `.field(k, v)` of the builder: the first field is preceded by
an opening brace, later ones by a comma. -/
def DebugStruct.field (b : DebugStruct) (k v : String) : DebugStruct :=
  ⟨b.result ++ (if b.has_fields then ", " else " \x7b ") ++ k ++ ": " ++ v, true⟩

/-- `.finish()` of the builder: closes the brace when a field was
emitted. -/
def DebugStruct.finish (b : DebugStruct) : String :=
  if b.has_fields then b.result ++ " \x7d" else b.result

/-- Rust `Display` of `bool`. -/
def bool_str (b : Bool) : String :=
  if b then "true" else "false"

/-- The `fmt::Debug` implementation for `ChunkType`: a `debug_struct`
named `ChunkType` with the escaped type field followed by the four
predicate values. -/
def fmt_debug (t : ChunkType) : String :=
  ((((((debug_struct "ChunkType").field "type" (debug_type t)).field
      "critical" (bool_str (is_critical t))).field
      "private" (bool_str (is_private t))).field
      "reserved" (bool_str (reserved_set t))).field
      "safecopy" (bool_str (safe_to_copy t))).finish

/-- Printable ASCII bytes that Rust renders literally under
`escape_debug`: the printable ASCII range minus the double quote,
the single quote and the backslash, which `escape_debug` backslash-
escapes although they are printable. -/
def printable_ascii_plain (c : Nat) : Bool :=
  32 ≤ c && c ≤ 126 && c != 34 && c != 39 && c != 92

/-- The caller-contract letter invariant: a byte in the ASCII ranges
A–Z or a–z. -/
def ascii_letter (c : Nat) : Bool :=
  (65 ≤ c && c ≤ 90) || (97 ≤ c && c ≤ 122)

-- Helper lemmas shared by the claim theorems.

/-- String concatenation acts as list concatenation on the underlying
character lists. -/
theorem string_mk_append (l1 l2 : List Char) :
    String.mk l1 ++ String.mk l2 = String.mk (l1 ++ l2) := rfl

/-- Masking with 32 is zero exactly when bit 5 is clear. -/
theorem and32_eq_zero_iff (n : Nat) : n &&& 32 = 0 ↔ n.testBit 5 = false := by
  have h : (32 : Nat) = 2 ^ 5 := by norm_num
  rw [h, Nat.and_two_pow]
  cases hb : n.testBit 5 <;> simp

/-- Masking with 32 is nonzero exactly when bit 5 is set. -/
theorem and32_ne_zero_iff (n : Nat) : n &&& 32 ≠ 0 ↔ n.testBit 5 = true := by
  rw [ne_eq, and32_eq_zero_iff]
  simp

set_option maxRecDepth 8192 in
/-- For every byte value, `escape_debug` renders plain printable ASCII
literally, backslash-escapes the quote, apostrophe and backslash, and
renders every non-printable byte as a multi-character sequence starting
with a backslash. -/
theorem escape_byte_cases : ∀ c : Nat, c < 256 →
    (printable_ascii_plain c = true → escape_debug c = String.mk [Char.ofNat c]) ∧
    ((c = 34 ∨ c = 39 ∨ c = 92) →
      escape_debug c = String.mk [Char.ofNat 92, Char.ofNat c]) ∧
    (latin1_printable c = false →
      (escape_debug c).data.head? = some (Char.ofNat 92) ∧
        2 ≤ (escape_debug c).data.length) := by
  decide

/-- Claim C1: each predicate is the protocol bit test on its designated
byte — `is_critical` holds iff bit 32 (bit index 5) of byte 0 is clear,
`is_private` iff that bit of byte 1 is set, `reserved_set` iff that bit
of byte 2 is set, and `safe_to_copy` iff that bit of byte 3 is set; the
predicates are total Lean functions over all inputs with no error
path. -/
theorem chunk_predicates_bit_spec (t : ChunkType) :
    (is_critical t = true ↔ t.type0 &&& 32 = 0) ∧
    (is_critical t = true ↔ t.type0.testBit 5 = false) ∧
    (is_private t = true ↔ t.type1 &&& 32 ≠ 0) ∧
    (is_private t = true ↔ t.type1.testBit 5 = true) ∧
    (reserved_set t = true ↔ t.type2 &&& 32 ≠ 0) ∧
    (reserved_set t = true ↔ t.type2.testBit 5 = true) ∧
    (safe_to_copy t = true ↔ t.type3 &&& 32 ≠ 0) ∧
    (safe_to_copy t = true ↔ t.type3.testBit 5 = true) := by
  simp [is_critical, is_private, reserved_set, safe_to_copy,
    ← and32_eq_zero_iff, ← and32_ne_zero_iff]

/-- Claim C2: each of the four critical constants IHDR, PLTE, IDAT,
IEND is critical, public, reserved-bit clear and not safe to copy. -/
theorem critical_constants_spec :
    ∀ t ∈ CRITICAL_CHUNKS,
      is_critical t = true ∧ is_private t = false ∧
        reserved_set t = false ∧ safe_to_copy t = false := by
  decide

/-- Witness for C2: the theorem applied to the concrete constant
IHDR. -/
theorem critical_constants_spec_witness :
    is_critical IHDR = true ∧ is_private IHDR = false ∧
      reserved_set IHDR = false ∧ safe_to_copy IHDR = false :=
  critical_constants_spec IHDR (by decide)

/-- Claim C3: each of the eleven ancillary constants is non-critical,
public and reserved-bit clear, and is safe to copy exactly when it is
one of pHYs, tEXt, zTXt, iTXt. -/
theorem ancillary_constants_spec :
    ∀ t ∈ ANCILLARY_CHUNKS,
      (is_critical t = false ∧ is_private t = false ∧ reserved_set t = false) ∧
        (safe_to_copy t = true ↔ (t = pHYs ∨ t = tEXt ∨ t = zTXt ∨ t = iTXt)) := by
  decide

/-- Witness for C3: the theorem applied to the concrete constant
pHYs. -/
theorem ancillary_constants_spec_witness :
    (is_critical pHYs = false ∧ is_private pHYs = false ∧
        reserved_set pHYs = false) ∧
      (safe_to_copy pHYs = true ↔
        (pHYs = pHYs ∨ pHYs = tEXt ∨ pHYs = zTXt ∨ pHYs = iTXt)) :=
  ancillary_constants_spec pHYs (by decide)

/-- Claim C4: each of the three extension constants acTL, fcTL, fdAT is
non-critical, private, reserved-bit clear and not safe to copy. -/
theorem extension_constants_spec :
    ∀ t ∈ EXTENSION_CHUNKS,
      is_critical t = false ∧ is_private t = true ∧
        reserved_set t = false ∧ safe_to_copy t = false := by
  decide

/-- Witness for C4: the theorem applied to the concrete constant
acTL. -/
theorem extension_constants_spec_witness :
    is_critical acTL = false ∧ is_private acTL = true ∧
      reserved_set acTL = false ∧ safe_to_copy acTL = false :=
  extension_constants_spec acTL (by decide)

/-- Claim C5: for every tag the diagnostic formatter output carries
exactly the four predicate values as its `critical`, `private`,
`reserved` and `safecopy` fields, and on the tag with bytes I,H,D,R it
produces the literal characters IHDR with critical true and the other
three fields false. -/
theorem fmt_debug_fields_spec (t : ChunkType) :
    (fmt_debug t =
      "ChunkType \x7b type: " ++ debug_type t ++ ", critical: " ++
        bool_str (is_critical t) ++ ", private: " ++ bool_str (is_private t) ++
        ", reserved: " ++ bool_str (reserved_set t) ++ ", safecopy: " ++
        bool_str (safe_to_copy t) ++ " \x7d") ∧
    fmt_debug IHDR =
      "ChunkType \x7b type: IHDR, critical: true, private: false, reserved: false, safecopy: false \x7d" := by
  constructor
  · simp [fmt_debug, debug_struct, DebugStruct.field, DebugStruct.finish,
      String.append_assoc]
  · decide

/-- Claim C6: `ChunkType` equality is structural — two values are equal
iff their four bytes agree pairwise, equal values hash identically, and
each byte read back from a constructed value is the byte it was
constructed from. -/
theorem chunk_type_structural_eq (a0 a1 a2 a3 b0 b1 b2 b3 : Nat) :
    ((ChunkType.mk a0 a1 a2 a3 = ChunkType.mk b0 b1 b2 b3) ↔
      (a0 = b0 ∧ a1 = b1 ∧ a2 = b2 ∧ a3 = b3)) ∧
    (ChunkType.mk a0 a1 a2 a3 = ChunkType.mk b0 b1 b2 b3 →
      hash (ChunkType.mk a0 a1 a2 a3) = hash (ChunkType.mk b0 b1 b2 b3)) ∧
    ((ChunkType.mk a0 a1 a2 a3).type0 = a0 ∧
      (ChunkType.mk a0 a1 a2 a3).type1 = a1 ∧
      (ChunkType.mk a0 a1 a2 a3).type2 = a2 ∧
      (ChunkType.mk a0 a1 a2 a3).type3 = a3) := by
  refine ⟨?_, fun h => by rw [h], rfl, rfl, rfl, rfl⟩
  simp [ChunkType.mk.injEq]

/-- Witness for C6: the theorem applied to the bytes of IHDR, with the
equality hypothesis of the hash clause discharged by `rfl`. -/
theorem chunk_type_structural_eq_witness :
    hash (ChunkType.mk 73 72 68 82) = hash (ChunkType.mk 73 72 68 82) ∧
      (ChunkType.mk 73 72 68 82).type0 = 73 :=
  ⟨(chunk_type_structural_eq 73 72 68 82 73 72 68 82).2.1 rfl,
    (chunk_type_structural_eq 73 72 68 82 73 72 68 82).2.2.1⟩

/-- Claim C7: each predicate depends only on its designated byte — tags
agreeing on byte 0 get the same `is_critical`, and likewise byte 1 for
`is_private`, byte 2 for `reserved_set`, byte 3 for `safe_to_copy`. -/
theorem predicate_byte_locality (t u : ChunkType) :
    (t.type0 = u.type0 → is_critical t = is_critical u) ∧
    (t.type1 = u.type1 → is_private t = is_private u) ∧
    (t.type2 = u.type2 → reserved_set t = reserved_set u) ∧
    (t.type3 = u.type3 → safe_to_copy t = safe_to_copy u) :=
  ⟨fun h => by simp [is_critical, h], fun h => by simp [is_private, h],
    fun h => by simp [reserved_set, h], fun h => by simp [safe_to_copy, h]⟩

/-- Witness for C7: two tags sharing each designated byte while
differing everywhere else, with each agreement hypothesis discharged by
`rfl`. -/
theorem predicate_byte_locality_witness :
    is_critical (ChunkType.mk 73 0 0 0) = is_critical (ChunkType.mk 73 255 255 255) ∧
    is_private (ChunkType.mk 0 72 0 0) = is_private (ChunkType.mk 255 72 255 255) ∧
    reserved_set (ChunkType.mk 0 0 68 0) = reserved_set (ChunkType.mk 255 255 68 255) ∧
    safe_to_copy (ChunkType.mk 0 0 0 82) = safe_to_copy (ChunkType.mk 255 255 255 82) :=
  ⟨(predicate_byte_locality (ChunkType.mk 73 0 0 0) (ChunkType.mk 73 255 255 255)).1 rfl,
    (predicate_byte_locality (ChunkType.mk 0 72 0 0) (ChunkType.mk 255 72 255 255)).2.1 rfl,
    (predicate_byte_locality (ChunkType.mk 0 0 68 0) (ChunkType.mk 255 255 68 255)).2.2.1 rfl,
    (predicate_byte_locality (ChunkType.mk 0 0 0 82) (ChunkType.mk 255 255 255 82)).2.2.2 rfl⟩

/-- Claim C8: the four classification bits are mutually independent —
every one of the 16 boolean combinations is realised by some tag whose
four bytes are genuine byte values (ASCII letters, even). -/
theorem classification_bits_independent (bc bp br bs : Bool) :
    ∃ t : ChunkType,
      t.type0 < 256 ∧ t.type1 < 256 ∧ t.type2 < 256 ∧ t.type3 < 256 ∧
        is_critical t = bc ∧ is_private t = bp ∧
        reserved_set t = br ∧ safe_to_copy t = bs := by
  refine ⟨⟨if bc then 65 else 97, if bp then 98 else 66,
    if br then 99 else 67, if bs then 100 else 68⟩, ?_⟩
  cases bc <;> cases bp <;> cases br <;> cases bs <;> decide

/-- Counterexample for C9: the tag with bytes A,quote,D,R consists
solely of printable ASCII bytes (each between 32 and 126), yet its
rendered type field is not the four literal characters — the double
quote, although printable ASCII, is rendered as a two-character
backslash escape. -/
theorem escape_printable_ascii_counterexample :
    (32 ≤ 65 ∧ 65 ≤ 126) ∧ (32 ≤ 34 ∧ 34 ≤ 126) ∧
      (32 ≤ 68 ∧ 68 ≤ 126) ∧ (32 ≤ 82 ∧ 82 ≤ 126) ∧
    debug_type (ChunkType.mk 65 34 68 82) ≠
      String.mk [Char.ofNat 65, Char.ofNat 34, Char.ofNat 68, Char.ofNat 82] ∧
    debug_type (ChunkType.mk 65 34 68 82) =
      String.mk [Char.ofNat 65, Char.ofNat 92, Char.ofNat 34,
        Char.ofNat 68, Char.ofNat 82] := by
  decide

/-- Claim C9 (amended): in the rendered type field every printable
ASCII byte other than the double quote, the single quote and the
backslash is rendered literally; those three bytes and every
non-printable byte are rendered as an unambiguous multi-character
escape sequence starting with a backslash; in particular a tag all of
whose bytes are plain printable ASCII renders as exactly those four
characters. -/
theorem debug_type_escape_spec (t : ChunkType)
    (h0 : t.type0 < 256) (h1 : t.type1 < 256)
    (h2 : t.type2 < 256) (h3 : t.type3 < 256) :
    (∀ c ∈ [t.type0, t.type1, t.type2, t.type3],
      (printable_ascii_plain c = true → escape_debug c = String.mk [Char.ofNat c]) ∧
      ((c = 34 ∨ c = 39 ∨ c = 92) →
        escape_debug c = String.mk [Char.ofNat 92, Char.ofNat c]) ∧
      (latin1_printable c = false →
        (escape_debug c).data.head? = some (Char.ofNat 92) ∧
          2 ≤ (escape_debug c).data.length)) ∧
    (printable_ascii_plain t.type0 = true → printable_ascii_plain t.type1 = true →
      printable_ascii_plain t.type2 = true → printable_ascii_plain t.type3 = true →
      debug_type t = String.mk [Char.ofNat t.type0, Char.ofNat t.type1,
        Char.ofNat t.type2, Char.ofNat t.type3]) := by
  constructor
  · intro c hc
    simp only [List.mem_cons, List.not_mem_nil, or_false] at hc
    rcases hc with h | h | h | h <;> subst h
    · exact escape_byte_cases t.type0 h0
    · exact escape_byte_cases t.type1 h1
    · exact escape_byte_cases t.type2 h2
    · exact escape_byte_cases t.type3 h3
  · intro p0 p1 p2 p3
    have e0 := (escape_byte_cases t.type0 h0).1 p0
    have e1 := (escape_byte_cases t.type1 h1).1 p1
    have e2 := (escape_byte_cases t.type2 h2).1 p2
    have e3 := (escape_byte_cases t.type3 h3).1 p3
    rw [debug_type, e0, e1, e2, e3, string_mk_append, string_mk_append,
      string_mk_append]
    rfl

/-- Witness for C9: the amended theorem applied to the IHDR bytes, all
hypotheses discharged by `decide`. -/
theorem debug_type_escape_spec_witness :
    debug_type (ChunkType.mk 73 72 68 82) =
      String.mk [Char.ofNat 73, Char.ofNat 72, Char.ofNat 68, Char.ofNat 82] :=
  (debug_type_escape_spec (ChunkType.mk 73 72 68 82) (by decide) (by decide)
      (by decide) (by decide)).2 (by decide) (by decide) (by decide) (by decide)

/-- Claim C10: all eighteen well-known constants have all four bytes in
the ASCII letter ranges, `reserved_set` is false on each of them, and
the eighteen values are pairwise distinct. -/
theorem known_chunks_invariant :
    (∀ t ∈ ALL_CHUNKS,
      (ascii_letter t.type0 = true ∧ ascii_letter t.type1 = true ∧
        ascii_letter t.type2 = true ∧ ascii_letter t.type3 = true) ∧
      reserved_set t = false) ∧
    ALL_CHUNKS.Nodup ∧ ALL_CHUNKS.length = 18 := by
  decide

/-- Witness for C10: the per-constant part of the theorem applied to
IHDR. -/
theorem known_chunks_invariant_witness :
    (ascii_letter IHDR.type0 = true ∧ ascii_letter IHDR.type1 = true ∧
      ascii_letter IHDR.type2 = true ∧ ascii_letter IHDR.type3 = true) ∧
    reserved_set IHDR = false :=
  known_chunks_invariant.1 IHDR (by decide)

end Png
